import Mathlib

set_option linter.dupNamespace false

/-!
# The `restore create` command of ark

A shallow embedding of `pkg/cmd/cli/restore/create.go`: the option set, the
three lifecycle phases `Validate`, `Complete` and `Run`, the command closure of
`NewCreateCommand` that chains them, and the request that `Run` builds, renders
or submits.

Effects are explicit.  Everything the code asks of the outside world (the client
factory, the wall clock, the output package, the API server) is passed in as a
value, and every interaction is recorded, in order, in a trace of `Event`s.
-/

namespace Ark

/-! ## Values shared with the collaborators -/

/-- Go `error` values; an error is identified by its message. -/
structure Error where
  msg : String
deriving DecidableEq, Repr

/-- Go maps from string to string (`map[string]string`), as association lists. -/
abbrev StringMap := List (String × String)

/-- One requirement of `metav1.LabelSelector`. -/
structure LabelSelectorRequirement where
  Key : String
  Operator : String
  Values : List String
deriving DecidableEq, Repr

/-- The structured label selector `metav1.LabelSelector`. -/
structure LabelSelector where
  MatchLabels : StringMap
  MatchExpressions : List LabelSelectorRequirement
deriving DecidableEq, Repr

/-- The fields of `metav1.ObjectMeta` that `Run` fills in. -/
structure ObjectMeta where
  Namespace : String
  Name : String
  Labels : StringMap
deriving DecidableEq, Repr

/-- The restore specification `api.RestoreSpec`. -/
structure RestoreSpec where
  BackupName : String
  Namespaces : List String
  NamespaceMapping : StringMap
  LabelSelector : Option LabelSelector
  RestorePVs : Bool
deriving DecidableEq, Repr

/-- The restore request `api.Restore`. -/
structure Restore where
  ObjectMeta : ObjectMeta
  Spec : RestoreSpec
deriving DecidableEq, Repr

/-- The promoted field `restore.Namespace`. -/
def Restore.Namespace (r : Restore) : String := r.ObjectMeta.Namespace

/-- The promoted field `restore.Name`. -/
def Restore.Name (r : Restore) : String := r.ObjectMeta.Name

/-! ## The flag value types of `pkg/cmd/util/flag` -/

namespace flag

/-- Modelled from the spec: the mapping flag value `flag.Map`, whose declaration is
in `pkg/cmd/util/flag`: the parsed key to value data with the entry delimiter and
the key-value delimiter it was configured with. -/
structure Map where
  data : StringMap
  entryDelimiter : String
  keyValueDelimiter : String
deriving DecidableEq, Repr

/-- The default mapping flag: no data, entries separated by `,`, key and value by `=`. -/
def NewMap : Map := { data := [], entryDelimiter := ",", keyValueDelimiter := "=" }

/-- Overrides the entry delimiter. -/
def Map.WithEntryDelimiter (m : Map) (delimiter : String) : Map :=
  { m with entryDelimiter := delimiter }

/-- Overrides the key-value delimiter. -/
def Map.WithKeyValueDelimiter (m : Map) (delimiter : String) : Map :=
  { m with keyValueDelimiter := delimiter }

/-- The parsed mapping, `Map.Data()`. -/
def Map.Data (m : Map) : StringMap := m.data

/-- The ordered sequence flag value `flag.StringArray`, a slice of strings. -/
abbrev StringArray := List String

/-- Modelled from the spec: the selector flag value `flag.LabelSelector`, whose
declaration is in `pkg/cmd/util/flag`: an optional structured selector, absent
when the flag was not given. -/
structure LabelSelector where
  LabelSelector : Option Ark.LabelSelector
deriving DecidableEq, Repr

end flag

/-! ## Wall-clock time and `Time.Format` -/

/-- A clock reading as `time.Now()` returns it, by its calendar fields.  The year
is a Go `int`; the other fields have the ranges that the accessors of `time.Time`
guarantee. -/
structure Time where
  year : Int
  month : Nat
  day : Nat
  hour : Nat
  minute : Nat
  second : Nat
  nsec : Nat
  month_ok : 1 ≤ month ∧ month ≤ 12
  day_ok : 1 ≤ day ∧ day ≤ 31
  hour_ok : hour ≤ 23
  minute_ok : minute ≤ 59
  second_ok : second ≤ 59
  nsec_ok : nsec ≤ 999999999

/-- The byte `'0' + u` of the Go library. -/
def digitByte (u : Nat) : Char := Char.ofNat (48 + u)

/-- The loop of the Go library function `appendInt` that assembles the decimal form
of `u`; the fuel is the size of its buffer. -/
def decimal : Nat → Nat → List Char
  | 0, _ => []
  | fuel + 1, u =>
    if 10 ≤ u then decimal fuel (u / 10) ++ [digitByte (u % 10)] else [digitByte u]

/-- The Go library function `appendInt` of package `time`: appends the decimal form
of `x` to `b`, a minus sign first when `x` is negative, padded with leading zeros
when the decimal form is shorter than `width`. -/
def appendInt (b : String) (x : Int) (width : Nat) : String :=
  let b1 := if x < 0 then b.push '-' else b
  let buf := decimal 20 x.natAbs
  b1 ++ String.mk (List.replicate (width - buf.length) '0') ++ String.mk buf

/-- The chunks of a `time` layout that occur in `Run`. -/
inductive Chunk where
  | stdLongYear
  | stdZeroMonth
  | stdZeroDay
  | stdHour
  | stdZeroMinute
  | stdZeroSecond
deriving DecidableEq, Repr

/-- The layout `"20060102150405"` as the Go library splits it: `2006`, `01`, `02`,
`15`, `04`, `05`. -/
def layout20060102150405 : List Chunk :=
  [.stdLongYear, .stdZeroMonth, .stdZeroDay, .stdHour, .stdZeroMinute, .stdZeroSecond]

/-- One step of the Go library method `Time.Format`: the text of one chunk is
appended to `b`. -/
def Time.appendChunk (t : Time) (b : String) : Chunk → String
  | .stdLongYear => appendInt b t.year 4
  | .stdZeroMonth => appendInt b t.month 2
  | .stdZeroDay => appendInt b t.day 2
  | .stdHour => appendInt b t.hour 2
  | .stdZeroMinute => appendInt b t.minute 2
  | .stdZeroSecond => appendInt b t.second 2

/-- The Go library method `Time.Format` on a split layout. -/
def Time.Format (t : Time) (layout : List Chunk) : String :=
  layout.foldl t.appendChunk ""

/-! ## The command, its collaborators and the trace -/

/-- Modelled from the spec: the cobra command as far as this file observes it, the
value of the output-format flag, absent when the flag was not supplied. -/
structure Command where
  OutputFormat : Option String
deriving DecidableEq, Repr

/-- One interaction of the command with the outside world. -/
inductive Event where
  | client
  | now
  | printWithFormat (r : Restore)
  | stdout (s : String)
  | create (ns : String) (r : Restore)
  | stderr (e : Error)
deriving DecidableEq, Repr

/-- What `output.PrintWithFormat` does and returns: the text it wrote to standard
output, whether it printed, and its error. -/
structure PrintResult where
  out : List String
  printed : Bool
  err : Option Error
deriving DecidableEq, Repr

/-- The code used by this file and declared elsewhere in the repository:
`api.DefaultNamespace`, `output.ValidateFlags` and `output.PrintWithFormat`. -/
structure Deps where
  DefaultNamespace : String
  ValidateFlags : Command → Option Error
  PrintWithFormat : Command → Restore → PrintResult

/-- The restores client reached by `arkClient.ArkV1().Restores(ns)`: the answer of
the API to a create call, the stored object or an error. -/
structure Clientset where
  Create : String → Restore → Except Error Restore

/-- The client factory `client.Factory`: what `f.Client()` returns. -/
structure Factory where
  Client : Except Error Clientset

/-! ## `create.go` -/

/-- The option set `CreateOptions`. -/
structure CreateOptions where
  BackupName : String
  RestoreVolumes : Bool
  Labels : flag.Map
  Namespaces : flag.StringArray
  NamespaceMappings : flag.Map
  Selector : flag.LabelSelector
deriving DecidableEq, Repr

/-- The constructor `NewCreateOptions`; the fields it leaves out are zero values. -/
def NewCreateOptions : CreateOptions :=
  { BackupName := ""
    RestoreVolumes := false
    Labels := flag.NewMap
    Namespaces := []
    NamespaceMappings := (flag.NewMap.WithEntryDelimiter ",").WithKeyValueDelimiter ":"
    Selector := { LabelSelector := none } }

/-- The error of `Validate` for a wrong number of positional arguments. -/
def argumentCountError : Error :=
  { msg := "you must specify only one argument, the backup's name" }

/-- The method `CreateOptions.Validate`; `none` is a nil error. -/
def CreateOptions.Validate (d : Deps) (_o : CreateOptions) (c : Command)
    (args : List String) : Option Error :=
  if args.length ≠ 1 then
    some argumentCountError
  else
    match d.ValidateFlags c with
    | some err => some err
    | none => none

/-- A run-time panic of Go. -/
inductive Panic where
  | indexOutOfRange
deriving DecidableEq, Repr

/-- The method `CreateOptions.Complete`: the updated option set and the returned
error, or the panic of `args[0]` on an empty argument list. -/
def CreateOptions.Complete (o : CreateOptions) (args : List String) :
    Except Panic (CreateOptions × Option Error) :=
  match args[0]? with
  | none => .error .indexOutOfRange
  | some a => .ok ({ o with BackupName := a }, none)

/-- The outcome of a call of `Run`: the returned error (`none` is nil) and the
interactions it made, in order. -/
structure Result where
  err : Option Error
  trace : List Event
deriving DecidableEq, Repr

/-- A hexadecimal digit in lower case, as the Go library writes it. -/
def hexDigit (n : Nat) : Char :=
  if n < 10 then Char.ofNat (48 + n) else Char.ofNat (87 + n)

/-- The text of one character under the Go verb `%q`: the double quote and the
backslash are escaped with a backslash, the control characters of ASCII are written
as `\a`, `\b`, `\f`, `\n`, `\r`, `\t`, `\v` or `\x` and two hexadecimal digits, and
every other character stands for itself.  Characters outside ASCII stand for
themselves here; the Go library escapes the unprintable ones. -/
def quoteRune (ch : Char) : List Char :=
  if ch = Char.ofNat 34 then [Char.ofNat 92, Char.ofNat 34]
  else if ch = Char.ofNat 92 then [Char.ofNat 92, Char.ofNat 92]
  else if ch.toNat = 7 then [Char.ofNat 92, 'a']
  else if ch.toNat = 8 then [Char.ofNat 92, 'b']
  else if ch.toNat = 12 then [Char.ofNat 92, 'f']
  else if ch.toNat = 10 then [Char.ofNat 92, 'n']
  else if ch.toNat = 13 then [Char.ofNat 92, 'r']
  else if ch.toNat = 9 then [Char.ofNat 92, 't']
  else if ch.toNat = 11 then [Char.ofNat 92, 'v']
  else if ch.toNat < 32 ∨ ch.toNat = 127 then
    [Char.ofNat 92, 'x', hexDigit (ch.toNat / 16), hexDigit (ch.toNat % 16)]
  else [ch]

/-- The Go verb `%q` on a string: the string in double quotes, each character
written by `quoteRune`. -/
def quoted (s : String) : String :=
  String.mk (Char.ofNat 34 :: (s.data.flatMap quoteRune ++ [Char.ofNat 34]))

/-- The line printed after a successful create call. -/
def confirmation (name : String) : String :=
  "Restore " ++ quoted name ++ " created successfully.\n"

/-- The value of the variable `restore` that `Run` builds before the output gate;
`now` is the reading `time.Now()` returns. -/
def CreateOptions.restore (d : Deps) (o : CreateOptions) (now : Time) : Restore :=
  { ObjectMeta :=
      { Namespace := d.DefaultNamespace
        Name := o.BackupName ++ "-" ++ now.Format layout20060102150405
        Labels := o.Labels.Data }
    Spec :=
      { BackupName := o.BackupName
        Namespaces := o.Namespaces
        NamespaceMapping := o.NamespaceMappings.Data
        LabelSelector := o.Selector.LabelSelector
        RestorePVs := o.RestoreVolumes } }

/-- The method `CreateOptions.Run`; `now` is the reading `time.Now()` returns. -/
def CreateOptions.Run (d : Deps) (o : CreateOptions) (c : Command) (f : Factory)
    (now : Time) : Result :=
  match f.Client with
  | .error err => { err := some err, trace := [.client] }
  | .ok arkClient =>
    let restore : Restore := o.restore d now
    let p := d.PrintWithFormat c restore
    let gate : List Event :=
      [.client, .now, .printWithFormat restore] ++ p.out.map Event.stdout
    if p.printed || p.err.isSome then
      { err := p.err, trace := gate }
    else
      match arkClient.Create restore.Namespace restore with
      | .error err =>
        { err := some err, trace := gate ++ [.create restore.Namespace restore] }
      | .ok created =>
        { err := none
          trace := gate ++ [.create restore.Namespace restore,
            .stdout (confirmation created.Name)] }

/-- How the process of one command invocation ends: it exits zero, it exits
non-zero with an error printed, or it panics. -/
inductive Status where
  | success
  | failed (e : Error)
  | panicked (p : Panic)
deriving DecidableEq, Repr

/-- The end of one command invocation: how it ended, the option set it left and
the interactions it made. -/
structure Outcome where
  status : Status
  opts : CreateOptions
  trace : List Event
deriving DecidableEq, Repr

/-- What `cmd.CheckError` does with the error of a phase. -/
inductive Checked where
  | proceed
  | terminate (e : Error)
deriving DecidableEq, Repr

/-- Modelled from the spec: `cmd.CheckError`, declared in `pkg/cmd`: a failure at a
lifecycle phase terminates the process non-zero with the error message printed; a
nil error lets the command go on. -/
def CheckError : Option Error → Checked
  | none => .proceed
  | some e => .terminate e

/-- The `Run` closure of the command that `NewCreateCommand` builds, on the option
set `o` the flags were bound to. -/
def NewCreateCommand.Run (d : Deps) (o : CreateOptions) (c : Command)
    (args : List String) (f : Factory) (now : Time) : Outcome :=
  match CheckError (o.Validate d c args) with
  | .terminate e => { status := .failed e, opts := o, trace := [.stderr e] }
  | .proceed =>
    match o.Complete args with
    | .error p => { status := .panicked p, opts := o, trace := [] }
    | .ok (o1, err) =>
      match CheckError err with
      | .terminate e => { status := .failed e, opts := o1, trace := [.stderr e] }
      | .proceed =>
        let r := o1.Run d c f now
        match CheckError r.err with
        | .terminate e => { status := .failed e, opts := o1, trace := r.trace ++ [.stderr e] }
        | .proceed => { status := .success, opts := o1, trace := r.trace }

/-! ## The output package, from the spec -/

namespace output

/-- The error of an output-format flag whose value is not recognised. -/
def unsupportedOutputFormat (format : String) : Error :=
  { msg := "unsupported output format " ++ quoted format }

/-- Modelled from the spec: `output.ValidateFlags`, declared in
`pkg/cmd/util/output`: it fails when the output-format option is set to a value
outside the fixed allowed-format set. -/
def ValidateFlags (allowed : List String) (c : Command) : Option Error :=
  match c.OutputFormat with
  | none => none
  | some format => if format ∈ allowed then none else some (unsupportedOutputFormat format)

/-- Modelled from the spec: `output.PrintWithFormat`, declared in
`pkg/cmd/util/output`.  With no output-format flag nothing is written and the
caller goes on.  With a flag whose format is in the allowed-format set the request
is serialized in that format to standard output and reported as printed, unless
the serializer fails, and then its error is returned and nothing is written.  With
a flag whose format is not recognised the error of the renderer is returned and
nothing is written. -/
def PrintWithFormat (allowed : List String)
    (serialize : String → Restore → Except Error String) (c : Command) (r : Restore) :
    PrintResult :=
  match c.OutputFormat with
  | none => { out := [], printed := false, err := none }
  | some format =>
    if format ∈ allowed then
      match serialize format r with
      | .ok text => { out := [text], printed := true, err := none }
      | .error err => { out := [], printed := false, err := some err }
    else
      { out := [], printed := false, err := some (unsupportedOutputFormat format) }

/-- The collaborators as the spec describes them, for a default namespace, an
allowed-format set and a serializer. -/
def deps (ns : String) (allowed : List String)
    (serialize : String → Restore → Except Error String) : Deps :=
  { DefaultNamespace := ns
    ValidateFlags := ValidateFlags allowed
    PrintWithFormat := PrintWithFormat allowed serialize }

end output

/-! ## Reading a trace -/

/-- The requests handed to the output gate, in order. -/
def requestsBuilt (trace : List Event) : List Restore :=
  trace.filterMap fun e =>
    match e with
    | .printWithFormat r => some r
    | _ => none

/-- The requests submitted by a create call, in order. -/
def createCalls (trace : List Event) : List Restore :=
  trace.filterMap fun e =>
    match e with
    | .create _ r => some r
    | _ => none

/-- The text written to standard output, in order. -/
def printedLines (trace : List Event) : List String :=
  trace.filterMap fun e =>
    match e with
    | .stdout s => some s
    | _ => none

/-- The name of the request that a call of `Run` builds, if it builds one. -/
def builtName (d : Deps) (o : CreateOptions) (c : Command) (f : Factory) (now : Time) :
    Option String :=
  ((requestsBuilt (o.Run d c f now).trace).map Restore.Name).head?

/-! ## Concrete inputs -/

/-- A serializer for the examples: the format, then the name of the request. -/
def serializeName (format : String) (r : Restore) : Except Error String :=
  .ok (format ++ ":" ++ r.Name)

/-- The collaborators of the examples. -/
def exampleDeps : Deps :=
  output.deps "heptio-ark" ["table", "json", "yaml"] serializeName

/-- The option set of the examples, completed with the backup name `daily`. -/
def dailyOptions : CreateOptions :=
  { NewCreateOptions with BackupName := "daily" }

/-- A clock reading: 2017-08-02 15:04:05. -/
def august2017 : Time :=
  { year := 2017, month := 8, day := 2, hour := 15, minute := 4, second := 5, nsec := 0
    month_ok := by decide, day_ok := by decide, hour_ok := by decide
    minute_ok := by decide, second_ok := by decide, nsec_ok := by decide }

/-- A later clock reading in the same second as `august2017`. -/
def august2017Later : Time :=
  { year := 2017, month := 8, day := 2, hour := 15, minute := 4, second := 5, nsec := 500
    month_ok := by decide, day_ok := by decide, hour_ok := by decide
    minute_ok := by decide, second_ok := by decide, nsec_ok := by decide }

/-- A clock reading later in the same year: 2017-12-31 23:59:59. -/
def december2017 : Time :=
  { year := 2017, month := 12, day := 31, hour := 23, minute := 59, second := 59, nsec := 0
    month_ok := by decide, day_ok := by decide, hour_ok := by decide
    minute_ok := by decide, second_ok := by decide, nsec_ok := by decide }

/-- A clock reading in the year 10000: 10000-01-01 00:00:00. -/
def january10000 : Time :=
  { year := 10000, month := 1, day := 1, hour := 0, minute := 0, second := 0, nsec := 0
    month_ok := by decide, day_ok := by decide, hour_ok := by decide
    minute_ok := by decide, second_ok := by decide, nsec_ok := by decide }

/-- An API that stores every request as it is. -/
def storingClient : Clientset :=
  { Create := fun _ r => .ok r }

/-- An API whose create call fails. -/
def failingClient : Clientset :=
  { Create := fun _ _ => .error { msg := "restores.ark.heptio.com already exists" } }

/-- A factory that hands out `storingClient`. -/
def storingFactory : Factory := { Client := .ok storingClient }

/-- A factory that hands out `failingClient`. -/
def failingApiFactory : Factory := { Client := .ok failingClient }

/-- A factory that cannot build a client. -/
def brokenFactory : Factory := { Client := .error { msg := "no kubeconfig found" } }

/-! ## The timestamp, from the spec -/

/-- The `width` low decimal digits of `n`, most significant first: the zero-padded
fixed-width decimal form of `n`. -/
def zeroPadded : Nat → Nat → List Char
  | 0, _ => []
  | width + 1, n => zeroPadded width (n / 10) ++ [digitByte (n % 10)]

/-- The timestamp `YYYYMMDDHHMMSS` as the spec words it: 4 digits of year, then 2
digits each of month, day, hour, minute and second, zero-padded, no separators. -/
def yyyymmddhhmmss (t : Time) : String :=
  String.mk (zeroPadded 4 t.year.toNat ++ zeroPadded 2 t.month ++ zeroPadded 2 t.day ++
    zeroPadded 2 t.hour ++ zeroPadded 2 t.minute ++ zeroPadded 2 t.second)

/-- Two clock readings fall in the same calendar second. -/
def Time.sameSecond (t1 t2 : Time) : Prop :=
  t1.year = t2.year ∧ t1.month = t2.month ∧ t1.day = t2.day ∧ t1.hour = t2.hour ∧
    t1.minute = t2.minute ∧ t1.second = t2.second

instance (t1 t2 : Time) : Decidable (t1.sameSecond t2) := by
  unfold Time.sameSecond
  infer_instance

/-- The date-time `t1` is earlier than or equal to `t2`, compared field by field as
(year, month, day, hour, minute, second). -/
def Time.notAfter (t1 t2 : Time) : Prop :=
  t1.year < t2.year ∨ (t1.year = t2.year ∧
    (t1.month < t2.month ∨ (t1.month = t2.month ∧
      (t1.day < t2.day ∨ (t1.day = t2.day ∧
        (t1.hour < t2.hour ∨ (t1.hour = t2.hour ∧
          (t1.minute < t2.minute ∨ (t1.minute = t2.minute ∧
            t1.second ≤ t2.second)))))))))

instance (t1 t2 : Time) : Decidable (t1.notAfter t2) := by
  unfold Time.notAfter
  infer_instance

/-! ## Lemmas on the timestamp -/

theorem digitByte_zero : digitByte 0 = '0' := by decide

theorem decimal_two (n : Nat) (h : n < 100) :
    List.replicate (2 - (decimal 20 n).length) '0' ++ decimal 20 n = zeroPadded 2 n := by
  by_cases h1 : 10 ≤ n
  · have h2 : ¬ 10 ≤ n / 10 := by omega
    have h5 : n / 10 % 10 = n / 10 := by omega
    simp [decimal, zeroPadded, h1, h2, h5]
  · have h3 : n / 10 = 0 := by omega
    have h4 : n % 10 = n := by omega
    simp [decimal, zeroPadded, h1, h3, h4, digitByte_zero]

theorem decimal_four (n : Nat) (h : n < 10000) :
    List.replicate (4 - (decimal 20 n).length) '0' ++ decimal 20 n = zeroPadded 4 n := by
  by_cases h1 : 10 ≤ n
  · by_cases h2 : 10 ≤ n / 10
    · by_cases h3 : 10 ≤ n / 10 / 10
      · have h4 : ¬ 10 ≤ n / 10 / 10 / 10 := by omega
        have h5 : n / 10 / 10 / 10 % 10 = n / 10 / 10 / 10 := by omega
        simp [decimal, zeroPadded, h1, h2, h3, h4, h5]
      · have h4 : n / 10 / 10 / 10 = 0 := by omega
        have h5 : n / 10 / 10 % 10 = n / 10 / 10 := by omega
        simp [decimal, zeroPadded, h1, h2, h3, h4, h5, digitByte_zero]
    · have h4 : n / 10 / 10 = 0 := by omega
      have h5 : n / 10 % 10 = n / 10 := by omega
      simp [decimal, zeroPadded, h1, h2, h4, h5, digitByte_zero]
  · have h3 : n / 10 = 0 := by omega
    have h4 : n % 10 = n := by omega
    simp [decimal, zeroPadded, h1, h3, h4, digitByte_zero]

theorem appendInt_two (b : String) (n : Nat) (h : n < 100) :
    appendInt b (n : Int) 2 = b ++ String.mk (zeroPadded 2 n) := by
  have hneg : ¬ ((n : Int) < 0) := by omega
  simp only [appendInt, hneg, if_false, Int.natAbs_ofNat]
  rw [String.append_assoc]
  congr 1
  rw [← decimal_two n h]
  rfl

theorem appendInt_four (b : String) (x : Int) (h0 : 0 ≤ x) (h : x ≤ 9999) :
    appendInt b x 4 = b ++ String.mk (zeroPadded 4 x.toNat) := by
  have hneg : ¬ (x < 0) := by omega
  have hx : x.natAbs = x.toNat := by omega
  simp only [appendInt, hneg, if_false, hx]
  rw [String.append_assoc]
  congr 1
  rw [← decimal_four x.toNat (by omega)]
  rfl

theorem Format_eq (t : Time) (h0 : 0 ≤ t.year) (h : t.year ≤ 9999) :
    t.Format layout20060102150405 = yyyymmddhhmmss t := by
  have hm := t.month_ok
  have hd := t.day_ok
  have hh := t.hour_ok
  have hmi := t.minute_ok
  have hs := t.second_ok
  simp only [Time.Format, layout20060102150405, List.foldl, Time.appendChunk]
  rw [appendInt_four _ _ h0 h, appendInt_two _ _ (by omega), appendInt_two _ _ (by omega),
    appendInt_two _ _ (by omega), appendInt_two _ _ (by omega), appendInt_two _ _ (by omega)]
  apply String.ext
  simp [yyyymmddhhmmss, String.data_append]

theorem digitByte_val (k : Nat) (h : k < 10) : (digitByte k).toNat = 48 + k := by
  interval_cases k <;> rfl

theorem digitByte_lt (a b : Nat) (ha : a < 10) (hb : b < 10) :
    digitByte a < digitByte b ↔ a < b := by
  interval_cases a <;> interval_cases b <;> decide

theorem digitByte_inj (a b : Nat) (ha : a < 10) (hb : b < 10) :
    digitByte a = digitByte b ↔ a = b := by
  interval_cases a <;> interval_cases b <;> decide

theorem digitByte_isDigit (k : Nat) (h : k < 10) : (digitByte k).isDigit = true := by
  interval_cases k <;> rfl

theorem cons_lt_cons_iff (a b : Char) (l1 l2 : List Char) :
    a :: l1 < b :: l2 ↔ a < b ∨ (a = b ∧ l1 < l2) := by
  constructor
  · intro h
    cases h with
    | cons h => exact Or.inr ⟨rfl, h⟩
    | rel h => exact Or.inl h
  · rintro (h | ⟨rfl, h⟩)
    · exact List.Lex.rel h
    · exact List.Lex.cons h

theorem append_lt_append_iff (p l1 l2 : List Char) : p ++ l1 < p ++ l2 ↔ l1 < l2 := by
  induction p with
  | nil => rfl
  | cons a p ih =>
    rw [List.cons_append, List.cons_append, cons_lt_cons_iff]
    constructor
    · rintro (h | ⟨_, h⟩)
      · exact absurd h (lt_irrefl _)
      · exact ih.mp h
    · intro h
      exact Or.inr ⟨rfl, ih.mpr h⟩

theorem zeroPadded_length (w n : Nat) : (zeroPadded w n).length = w := by
  induction w generalizing n with
  | zero => rfl
  | succ w ih => simp [zeroPadded, ih]

theorem zeroPadded_isDigit (w n : Nat) : ∀ ch ∈ zeroPadded w n, ch.isDigit = true := by
  induction w generalizing n with
  | zero => simp [zeroPadded]
  | succ w ih =>
    intro ch hch
    simp only [zeroPadded, List.mem_append, List.mem_singleton] at hch
    rcases hch with h | h
    · exact ih _ _ h
    · rw [h]
      exact digitByte_isDigit _ (Nat.mod_lt _ (by decide))

theorem zeroPadded_append_lt (w a b : Nat) (r1 r2 : List Char) :
    zeroPadded w a ++ r1 < zeroPadded w b ++ r2 ↔
      a % 10 ^ w < b % 10 ^ w ∨ (a % 10 ^ w = b % 10 ^ w ∧ r1 < r2) := by
  induction w generalizing a b r1 r2 with
  | zero => simp [zeroPadded, Nat.mod_one]
  | succ w ih =>
    simp only [zeroPadded, List.append_assoc, List.singleton_append]
    rw [ih, cons_lt_cons_iff, digitByte_lt _ _ (Nat.mod_lt _ (by decide)) (Nat.mod_lt _ (by decide)),
      digitByte_inj _ _ (Nat.mod_lt _ (by decide)) (Nat.mod_lt _ (by decide))]
    have ea : a % 10 ^ (w + 1) = a % 10 + 10 * (a / 10 % 10 ^ w) := by
      rw [pow_succ, mul_comm, Nat.mod_mul]
    have eb : b % 10 ^ (w + 1) = b % 10 + 10 * (b / 10 % 10 ^ w) := by
      rw [pow_succ, mul_comm, Nat.mod_mul]
    rw [ea, eb]
    generalize a / 10 % 10 ^ w = x
    generalize b / 10 % 10 ^ w = y
    have := Nat.mod_lt a (show 10 > 0 by decide)
    have := Nat.mod_lt b (show 10 > 0 by decide)
    constructor
    · rintro (h | ⟨h1, h2 | ⟨h2, h3⟩⟩)
      · left; omega
      · left; omega
      · right; exact ⟨by omega, h3⟩
    · rintro (h | ⟨h1, h2⟩)
      · by_cases hxy : x < y
        · exact Or.inl hxy
        · right; refine ⟨by omega, Or.inl (by omega)⟩
      · right; exact ⟨by omega, Or.inr ⟨by omega, h2⟩⟩

theorem zeroPadded_append_inj (w a b : Nat) (r1 r2 : List Char) :
    zeroPadded w a ++ r1 = zeroPadded w b ++ r2 ↔ a % 10 ^ w = b % 10 ^ w ∧ r1 = r2 := by
  induction w generalizing a b r1 r2 with
  | zero => simp [zeroPadded, Nat.mod_one]
  | succ w ih =>
    simp only [zeroPadded, List.append_assoc, List.singleton_append]
    rw [ih, List.cons.injEq, digitByte_inj _ _ (Nat.mod_lt _ (by decide)) (Nat.mod_lt _ (by decide))]
    have ea : a % 10 ^ (w + 1) = a % 10 + 10 * (a / 10 % 10 ^ w) := by
      rw [pow_succ, mul_comm, Nat.mod_mul]
    have eb : b % 10 ^ (w + 1) = b % 10 + 10 * (b / 10 % 10 ^ w) := by
      rw [pow_succ, mul_comm, Nat.mod_mul]
    rw [ea, eb]
    generalize a / 10 % 10 ^ w = x
    generalize b / 10 % 10 ^ w = y
    have := Nat.mod_lt a (show 10 > 0 by decide)
    have := Nat.mod_lt b (show 10 > 0 by decide)
    constructor
    · rintro ⟨h1, h2, h3⟩
      exact ⟨by omega, h3⟩
    · rintro ⟨h1, h2⟩
      exact ⟨by omega, by omega, h2⟩

theorem yyyymmddhhmmss_toList (t : Time) :
    (yyyymmddhhmmss t).toList = zeroPadded 4 t.year.toNat ++ (zeroPadded 2 t.month ++
      (zeroPadded 2 t.day ++ (zeroPadded 2 t.hour ++ (zeroPadded 2 t.minute ++
        (zeroPadded 2 t.second ++ []))))) := by
  simp [yyyymmddhhmmss, String.toList]

theorem yyyymmddhhmmss_length (t : Time) : (yyyymmddhhmmss t).length = 14 := by
  change (yyyymmddhhmmss t).toList.length = 14
  rw [yyyymmddhhmmss_toList]
  simp [zeroPadded_length]

theorem yyyymmddhhmmss_isDigit (t : Time) :
    ∀ ch ∈ (yyyymmddhhmmss t).toList, ch.isDigit = true := by
  intro ch hch
  rw [yyyymmddhhmmss_toList] at hch
  simp only [List.mem_append, List.not_mem_nil, or_false] at hch
  rcases hch with h | h | h | h | h | h <;> exact zeroPadded_isDigit _ _ _ h

theorem yyyymmddhhmmss_inj (t1 t2 : Time) (h1 : 0 ≤ t1.year ∧ t1.year ≤ 9999)
    (h2 : 0 ≤ t2.year ∧ t2.year ≤ 9999) :
    yyyymmddhhmmss t1 = yyyymmddhhmmss t2 ↔ t1.sameSecond t2 := by
  have a1 := t1.month_ok
  have a2 := t1.day_ok
  have a3 := t1.hour_ok
  have a4 := t1.minute_ok
  have a5 := t1.second_ok
  have b1 := t2.month_ok
  have b2 := t2.day_ok
  have b3 := t2.hour_ok
  have b4 := t2.minute_ok
  have b5 := t2.second_ok
  rw [String.ext_iff]
  change (yyyymmddhhmmss t1).toList = (yyyymmddhhmmss t2).toList ↔ _
  rw [yyyymmddhhmmss_toList, yyyymmddhhmmss_toList]
  simp only [zeroPadded_append_inj, Time.sameSecond, and_true]
  norm_num
  omega

theorem yyyymmddhhmmss_le (t1 t2 : Time) (h1 : 0 ≤ t1.year ∧ t1.year ≤ 9999)
    (h2 : 0 ≤ t2.year ∧ t2.year ≤ 9999) :
    yyyymmddhhmmss t1 ≤ yyyymmddhhmmss t2 ↔ t1.notAfter t2 := by
  have a1 := t1.month_ok
  have a2 := t1.day_ok
  have a3 := t1.hour_ok
  have a4 := t1.minute_ok
  have a5 := t1.second_ok
  have b1 := t2.month_ok
  have b2 := t2.day_ok
  have b3 := t2.hour_ok
  have b4 := t2.minute_ok
  have b5 := t2.second_ok
  rw [← not_lt, String.lt_iff_toList_lt, yyyymmddhhmmss_toList, yyyymmddhhmmss_toList]
  simp only [zeroPadded_append_lt, Time.notAfter]
  have hnil : ¬ (([] : List Char) < []) := lt_irrefl _
  simp only [hnil, and_false, or_false]
  norm_num
  omega

/-! ## Lemmas on `Run` -/

theorem run_of_client_error (d : Deps) (o : CreateOptions) (c : Command) (f : Factory)
    (now : Time) (e : Error) (h : f.Client = .error e) :
    o.Run d c f now = { err := some e, trace := [.client] } := by
  simp [CreateOptions.Run, h]

theorem requestsBuilt_run (d : Deps) (o : CreateOptions) (c : Command) (f : Factory)
    (now : Time) (cl : Clientset) (h : f.Client = .ok cl) :
    requestsBuilt (o.Run d c f now).trace = [o.restore d now] := by
  simp only [CreateOptions.Run, h]
  split
  · simp [requestsBuilt, List.filterMap_append, List.filterMap_map]
  · split <;> simp [requestsBuilt, List.filterMap_append, List.filterMap_map]

theorem createCalls_run (d : Deps) (o : CreateOptions) (c : Command) (f : Factory)
    (now : Time) : ∀ r ∈ createCalls (o.Run d c f now).trace, r = o.restore d now := by
  intro r
  simp only [CreateOptions.Run]
  split
  · simp [createCalls]
  · split
    · simp [createCalls, List.filterMap_append, List.filterMap_map]
    · split <;> simp [createCalls, List.filterMap_append, List.filterMap_map]

theorem builtName_eq (d : Deps) (o : CreateOptions) (c : Command) (f : Factory)
    (now : Time) (cl : Clientset) (h : f.Client = .ok cl) :
    builtName d o c f now = some (o.BackupName ++ "-" ++ now.Format layout20060102150405) := by
  simp [builtName, requestsBuilt_run d o c f now cl h, CreateOptions.restore, Restore.Name]

theorem printedLines_stdout (out : List String) :
    printedLines (out.map Event.stdout) = out := by
  induction out with
  | nil => rfl
  | cons s out ih =>
    simp only [printedLines, List.map_cons, List.filterMap_cons] at ih ⊢
    rw [ih]

theorem run_of_printed (d : Deps) (o : CreateOptions) (c : Command) (f : Factory)
    (now : Time) (cl : Clientset) (out : List String) (h : f.Client = .ok cl)
    (hp : d.PrintWithFormat c (o.restore d now) = { out := out, printed := true, err := none }) :
    o.Run d c f now =
      { err := none
        trace := [.client, .now, .printWithFormat (o.restore d now)] ++ out.map Event.stdout } := by
  simp [CreateOptions.Run, h, hp]

theorem run_of_create_error (d : Deps) (o : CreateOptions) (c : Command) (f : Factory)
    (now : Time) (cl : Clientset) (out : List String) (e : Error) (h : f.Client = .ok cl)
    (hp : d.PrintWithFormat c (o.restore d now) = { out := out, printed := false, err := none })
    (he : cl.Create d.DefaultNamespace (o.restore d now) = .error e) :
    o.Run d c f now =
      { err := some e
        trace := [.client, .now, .printWithFormat (o.restore d now)] ++ out.map Event.stdout ++
          [.create d.DefaultNamespace (o.restore d now)] } := by
  have hns : (o.restore d now).Namespace = d.DefaultNamespace := rfl
  simp [CreateOptions.Run, h, hp, hns, he]

theorem name_le_iff (b s1 s2 : String) : b ++ "-" ++ s1 ≤ b ++ "-" ++ s2 ↔ s1 ≤ s2 := by
  rw [← not_lt, ← not_lt, String.lt_iff_toList_lt, String.lt_iff_toList_lt]
  simp only [String.toList, String.data_append]
  rw [append_lt_append_iff]

/-! ## The claims -/

/-- C1: `Validate` is determined by the argument count and the output-format check.
For every argument list whose length is not 1 it fails with the argument-count
error, whatever the command's output-format flag holds; for every list of exactly
one argument it returns exactly what the output-format check returns. -/
theorem Validate_argument_count_then_output_check (d : Deps) (o : CreateOptions)
    (c : Command) (args : List String) :
    (args.length ≠ 1 → o.Validate d c args = some argumentCountError) ∧
      (args.length = 1 → o.Validate d c args = d.ValidateFlags c) := by
  constructor
  · intro h
    simp [CreateOptions.Validate, h]
  · intro h
    simp only [CreateOptions.Validate, h, ne_eq, not_true_eq_false, if_false]
    cases d.ValidateFlags c <;> rfl

theorem Validate_argument_count_then_output_check_witness :
    dailyOptions.Validate exampleDeps { OutputFormat := some "xml" } [] = some argumentCountError ∧
      dailyOptions.Validate exampleDeps { OutputFormat := some "xml" } ["a", "b"] =
        some argumentCountError ∧
      dailyOptions.Validate exampleDeps { OutputFormat := none } ["daily"] = none ∧
      dailyOptions.Validate exampleDeps { OutputFormat := some "json" } ["daily"] = none ∧
      dailyOptions.Validate exampleDeps { OutputFormat := some "xml" } ["daily"] =
        some (output.unsupportedOutputFormat "xml") :=
  ⟨(Validate_argument_count_then_output_check exampleDeps dailyOptions _ []).1 (by decide),
    (Validate_argument_count_then_output_check exampleDeps dailyOptions _ ["a", "b"]).1
      (by decide),
    ((Validate_argument_count_then_output_check exampleDeps dailyOptions _ ["daily"]).2
      (by decide)).trans (by decide),
    ((Validate_argument_count_then_output_check exampleDeps dailyOptions _ ["daily"]).2
      (by decide)).trans (by decide),
    ((Validate_argument_count_then_output_check exampleDeps dailyOptions _ ["daily"]).2
      (by decide)).trans (by decide)⟩

/-- C2, as stated, fails, in two ways.  With the output-format flag set to `json`
and a client factory that fails, `Run` does not terminate successfully, it returns
the error of the factory, and nothing is rendered.  With a client factory that
succeeds and the flag set to `xml`, a format the renderer does not recognise, `Run`
returns the error of the renderer and nothing is rendered. -/
theorem Run_output_flag_broken_factory :
    (({ OutputFormat := some "json" } : Command).OutputFormat ≠ none ∧
      (dailyOptions.Run exampleDeps { OutputFormat := some "json" } brokenFactory
        august2017).err = some { msg := "no kubeconfig found" } ∧
      ¬ (dailyOptions.Run exampleDeps { OutputFormat := some "json" } brokenFactory
        august2017).err = none ∧
      requestsBuilt (dailyOptions.Run exampleDeps { OutputFormat := some "json" } brokenFactory
        august2017).trace = [] ∧
      printedLines (dailyOptions.Run exampleDeps { OutputFormat := some "json" } brokenFactory
        august2017).trace = []) ∧
    (({ OutputFormat := some "xml" } : Command).OutputFormat ≠ none ∧
      (dailyOptions.Run exampleDeps { OutputFormat := some "xml" } storingFactory
        august2017).err = some (output.unsupportedOutputFormat "xml") ∧
      ¬ (dailyOptions.Run exampleDeps { OutputFormat := some "xml" } storingFactory
        august2017).err = none ∧
      printedLines (dailyOptions.Run exampleDeps { OutputFormat := some "xml" } storingFactory
        august2017).trace = []) := by
  decide

/-- C2, amended: for every completed option set and every `Run` in which the client
factory succeeds, an output-format flag is supplied and the renderer prints the
request without error, the built request is rendered (it is the one request handed
to the renderer, and what the renderer wrote is all that reaches standard output),
the create call is made zero times, and `Run` returns no error.  The renderer is
arbitrary. -/
theorem Run_output_flag_renders_without_create (d : Deps) (o : CreateOptions)
    (c : Command) (f : Factory) (now : Time) (cl : Clientset) (format : String)
    (hf : f.Client = .ok cl) (_hc : c.OutputFormat = some format)
    (hp : (d.PrintWithFormat c (o.restore d now)).printed = true)
    (he : (d.PrintWithFormat c (o.restore d now)).err = none) :
    (o.Run d c f now).err = none ∧
      createCalls (o.Run d c f now).trace = [] ∧
      requestsBuilt (o.Run d c f now).trace = [o.restore d now] ∧
      printedLines (o.Run d c f now).trace = (d.PrintWithFormat c (o.restore d now)).out := by
  have hr : d.PrintWithFormat c (o.restore d now) =
      { out := (d.PrintWithFormat c (o.restore d now)).out, printed := true, err := none } := by
    cases hq : d.PrintWithFormat c (o.restore d now) with
    | mk out printed err =>
      rw [hq] at hp he
      simp only at hp he
      rw [hp, he]
  rw [run_of_printed d o c f now cl _ hf hr]
  refine ⟨rfl, ?_, ?_, ?_⟩
  · simp [createCalls, List.filterMap_map]
  · simp [requestsBuilt, List.filterMap_map]
  · have hs := printedLines_stdout (d.PrintWithFormat c (o.restore d now)).out
    simp only [printedLines] at hs ⊢
    simp only [List.filterMap_append, hs]
    simp

theorem Run_output_flag_renders_without_create_witness :
    (dailyOptions.Run exampleDeps { OutputFormat := some "json" } storingFactory august2017).err
        = none ∧
      createCalls (dailyOptions.Run exampleDeps { OutputFormat := some "json" } storingFactory
        august2017).trace = [] ∧
      requestsBuilt (dailyOptions.Run exampleDeps { OutputFormat := some "json" } storingFactory
        august2017).trace = [dailyOptions.restore exampleDeps august2017] ∧
      printedLines (dailyOptions.Run exampleDeps { OutputFormat := some "json" } storingFactory
        august2017).trace = ["json:daily-20170802150405"] :=
  have h := Run_output_flag_renders_without_create exampleDeps dailyOptions
    { OutputFormat := some "json" } storingFactory august2017 storingClient "json" rfl rfl
    (by decide) (by decide)
  ⟨h.1, h.2.1, h.2.2.1, h.2.2.2.trans (by decide)⟩

/-- C3, as stated, fails: at a clock reading in the year 10000 the request that
`Run` builds for the backup name `daily` is named `daily-100000101000000`, and the
timestamp after the hyphen has 15 characters, not 14. -/
theorem Run_name_year_10000 :
    builtName exampleDeps dailyOptions { OutputFormat := none } storingFactory january10000 =
        some "daily-100000101000000" ∧
      january10000.Format layout20060102150405 = "100000101000000" ∧
      ¬ (january10000.Format layout20060102150405).length = 14 := by
  decide

/-- C3, amended: for every backup name and every clock reading whose year is from 0
to 9999, the request that `Run` builds (the client factory having succeeded) is
named by the backup name, a hyphen and the timestamp of the reading, and that
timestamp is exactly 14 decimal digits, the zero-padded year on 4 digits and month,
day, hour, minute and second on 2 digits each, with no separators. -/
theorem Run_name_timestamp (d : Deps) (o : CreateOptions) (c : Command) (f : Factory)
    (now : Time) (cl : Clientset) (hf : f.Client = .ok cl)
    (h0 : 0 ≤ now.year) (h1 : now.year ≤ 9999) :
    builtName d o c f now =
        some (o.BackupName ++ "-" ++ now.Format layout20060102150405) ∧
      now.Format layout20060102150405 = yyyymmddhhmmss now ∧
      (now.Format layout20060102150405).length = 14 ∧
      ∀ ch ∈ (now.Format layout20060102150405).toList, ch.isDigit = true := by
  refine ⟨builtName_eq d o c f now cl hf, Format_eq now h0 h1, ?_, ?_⟩
  · rw [Format_eq now h0 h1]
    exact yyyymmddhhmmss_length now
  · rw [Format_eq now h0 h1]
    exact yyyymmddhhmmss_isDigit now

theorem Run_name_timestamp_witness :
    builtName exampleDeps dailyOptions { OutputFormat := none } storingFactory august2017 =
        some ("daily" ++ "-" ++ august2017.Format layout20060102150405) ∧
      august2017.Format layout20060102150405 = "20170802150405" ∧
      (august2017.Format layout20060102150405).length = 14 :=
  have h := Run_name_timestamp exampleDeps dailyOptions { OutputFormat := none } storingFactory
    august2017 storingClient rfl (by decide) (by decide)
  ⟨h.1, h.2.1.trans (by decide), h.2.2.1⟩

/-- C4: for every `Run` with no output format set in which the client factory has
succeeded and the create call fails with an error, `Run` returns exactly that
error, makes exactly one create call, and prints nothing, so no confirmation. -/
theorem Run_create_error_returned (d : Deps) (allowed : List String)
    (serialize : String → Restore → Except Error String)
    (o : CreateOptions) (c : Command) (f : Factory) (now : Time) (cl : Clientset) (e : Error)
    (hd : d.PrintWithFormat = output.PrintWithFormat allowed serialize)
    (hf : f.Client = .ok cl) (hc : c.OutputFormat = none)
    (he : cl.Create d.DefaultNamespace (o.restore d now) = .error e) :
    (o.Run d c f now).err = some e ∧
      createCalls (o.Run d c f now).trace = [o.restore d now] ∧
      printedLines (o.Run d c f now).trace = [] := by
  have hp : d.PrintWithFormat c (o.restore d now) =
      { out := [], printed := false, err := none } := by
    rw [hd]
    simp [output.PrintWithFormat, hc]
  rw [run_of_create_error d o c f now cl _ e hf hp he]
  simp [createCalls, printedLines]

theorem Run_create_error_returned_witness :
    (dailyOptions.Run exampleDeps { OutputFormat := none } failingApiFactory august2017).err =
        some { msg := "restores.ark.heptio.com already exists" } ∧
      createCalls (dailyOptions.Run exampleDeps { OutputFormat := none } failingApiFactory
        august2017).trace = [dailyOptions.restore exampleDeps august2017] ∧
      printedLines (dailyOptions.Run exampleDeps { OutputFormat := none } failingApiFactory
        august2017).trace = [] :=
  Run_create_error_returned exampleDeps _ serializeName dailyOptions { OutputFormat := none }
    failingApiFactory august2017 failingClient _ rfl rfl rfl rfl

/-- C5: for every completed option set, the request that `Run` builds (the client
factory having succeeded) has the fixed default namespace, the labels of the option
set, and the spec fields backupName, namespaces, namespaceMapping, selector and
restoreVolumes of the option set, unchanged; empty namespaces and an empty selector
stay empty; and every request submitted by a create call is that same request. -/
theorem Run_request_fields (d : Deps) (o : CreateOptions) (c : Command) (f : Factory)
    (now : Time) (cl : Clientset) (hf : f.Client = .ok cl) :
    ∃ r, requestsBuilt (o.Run d c f now).trace = [r] ∧
      (∀ s ∈ createCalls (o.Run d c f now).trace, s = r) ∧
      r.Namespace = d.DefaultNamespace ∧
      r.ObjectMeta.Labels = o.Labels.Data ∧
      r.Spec.BackupName = o.BackupName ∧
      r.Spec.Namespaces = o.Namespaces ∧
      r.Spec.NamespaceMapping = o.NamespaceMappings.Data ∧
      r.Spec.LabelSelector = o.Selector.LabelSelector ∧
      r.Spec.RestorePVs = o.RestoreVolumes ∧
      (o.Namespaces = [] → r.Spec.Namespaces = []) ∧
      (o.Selector.LabelSelector = none → r.Spec.LabelSelector = none) :=
  ⟨o.restore d now, requestsBuilt_run d o c f now cl hf, createCalls_run d o c f now,
    rfl, rfl, rfl, rfl, rfl, rfl, rfl, fun h => h, fun h => h⟩

theorem Run_request_fields_witness :
    ∃ r, requestsBuilt (dailyOptions.Run exampleDeps { OutputFormat := none } storingFactory
        august2017).trace = [r] ∧
      (∀ s ∈ createCalls (dailyOptions.Run exampleDeps { OutputFormat := none } storingFactory
        august2017).trace, s = r) ∧
      r.Namespace = "heptio-ark" ∧
      r.ObjectMeta.Labels = [] ∧
      r.Spec.BackupName = "daily" ∧
      r.Spec.Namespaces = [] ∧
      r.Spec.NamespaceMapping = [] ∧
      r.Spec.LabelSelector = none ∧
      r.Spec.RestorePVs = false :=
  match Run_request_fields exampleDeps dailyOptions { OutputFormat := none } storingFactory
    august2017 storingClient rfl with
  | ⟨r, h1, h2, h3, h4, h5, h6, h7, h8, h9, _, _⟩ => ⟨r, h1, h2, h3, h4, h5, h6, h7, h8, h9⟩

/-- C6: for every option set and every argument list of exactly one element, which
is every list that `Validate` accepts, `Complete` does not panic on `args[0]`,
returns no error, sets backupName to that element, and leaves restoreVolumes,
labels, namespaces, namespaceMapping and selector unchanged. -/
theorem Complete_binds_backup_name (d : Deps) (o : CreateOptions) (c : Command)
    (args : List String) :
    (o.Validate d c args = none → args.length = 1) ∧
      (args.length = 1 → ∃ a o1, args = [a] ∧ o.Complete args = .ok (o1, none) ∧
        o1.BackupName = a ∧
        o1.RestoreVolumes = o.RestoreVolumes ∧
        o1.Labels = o.Labels ∧
        o1.Namespaces = o.Namespaces ∧
        o1.NamespaceMappings = o.NamespaceMappings ∧
        o1.Selector = o.Selector) := by
  constructor
  · intro h
    by_contra hne
    simp [CreateOptions.Validate, hne] at h
  · intro h
    match args, h with
    | [a], _ =>
      exact ⟨a, { o with BackupName := a }, rfl, rfl, rfl, rfl, rfl, rfl, rfl, rfl⟩

theorem Complete_binds_backup_name_witness :
    NewCreateOptions.Validate exampleDeps { OutputFormat := none } ["daily"] = none ∧
      ∃ a o1, ["daily"] = [a] ∧ NewCreateOptions.Complete ["daily"] = .ok (o1, none) ∧
        o1.BackupName = a ∧
        o1.RestoreVolumes = NewCreateOptions.RestoreVolumes ∧
        o1.Labels = NewCreateOptions.Labels ∧
        o1.Namespaces = NewCreateOptions.Namespaces ∧
        o1.NamespaceMappings = NewCreateOptions.NamespaceMappings ∧
        o1.Selector = NewCreateOptions.Selector :=
  ⟨by decide,
    (Complete_binds_backup_name exampleDeps NewCreateOptions { OutputFormat := none }
      ["daily"]).2 (by decide)⟩

/-- C7: the command runs `Validate`, then `Complete`, then `Run`, and stops at the
first phase that fails.  When `Validate` fails with an error, the command ends with
that error, the option set is as it was (backupName is not bound), and no client is
obtained, no request is built, nothing is written to standard output and no create
call is made.  When `Validate` and `Complete` succeed, the command ends as `Run` on
the completed option set does: with its error or with success, after its
interactions. -/
theorem command_phases_in_order (d : Deps) (o : CreateOptions) (c : Command)
    (args : List String) (f : Factory) (now : Time) :
    (∀ e, o.Validate d c args = some e →
      (NewCreateCommand.Run d o c args f now).status = .failed e ∧
      (NewCreateCommand.Run d o c args f now).opts = o ∧
      Event.client ∉ (NewCreateCommand.Run d o c args f now).trace ∧
      Event.now ∉ (NewCreateCommand.Run d o c args f now).trace ∧
      requestsBuilt (NewCreateCommand.Run d o c args f now).trace = [] ∧
      printedLines (NewCreateCommand.Run d o c args f now).trace = [] ∧
      createCalls (NewCreateCommand.Run d o c args f now).trace = []) ∧
    (∀ o1, o.Validate d c args = none → o.Complete args = .ok (o1, none) →
      (NewCreateCommand.Run d o c args f now).opts = o1 ∧
      (NewCreateCommand.Run d o c args f now).status =
        (match (o1.Run d c f now).err with
          | none => Status.success
          | some e => Status.failed e) ∧
      (NewCreateCommand.Run d o c args f now).trace =
        (o1.Run d c f now).trace ++
          (match (o1.Run d c f now).err with
            | none => []
            | some e => [Event.stderr e])) := by
  constructor
  · intro e h
    simp [NewCreateCommand.Run, CheckError, h, requestsBuilt, printedLines, createCalls]
  · intro o1 hv hco
    simp only [NewCreateCommand.Run, CheckError, hv, hco]
    cases (o1.Run d c f now).err <;> simp

theorem command_phases_in_order_witness :
    ((NewCreateCommand.Run exampleDeps NewCreateOptions { OutputFormat := none } []
        storingFactory august2017).status = .failed argumentCountError ∧
      (NewCreateCommand.Run exampleDeps NewCreateOptions { OutputFormat := none } []
        storingFactory august2017).opts = NewCreateOptions) ∧
    ((NewCreateCommand.Run exampleDeps NewCreateOptions { OutputFormat := none } ["daily"]
        storingFactory august2017).opts = dailyOptions ∧
      (NewCreateCommand.Run exampleDeps NewCreateOptions { OutputFormat := none } ["daily"]
        storingFactory august2017).status = .success) :=
  ⟨⟨((command_phases_in_order exampleDeps NewCreateOptions { OutputFormat := none } []
      storingFactory august2017).1 argumentCountError (by decide)).1,
    ((command_phases_in_order exampleDeps NewCreateOptions { OutputFormat := none } []
      storingFactory august2017).1 argumentCountError (by decide)).2.1⟩,
   ⟨((command_phases_in_order exampleDeps NewCreateOptions { OutputFormat := none }
      ["daily"] storingFactory august2017).2 dailyOptions (by decide) rfl).1,
    ((command_phases_in_order exampleDeps NewCreateOptions { OutputFormat := none }
      ["daily"] storingFactory august2017).2 dailyOptions (by decide) rfl).2.1.trans
        (by decide)⟩⟩

/-- C8: the generated request name is unique per backup name per second and no
finer.  For all backup names and clock readings with years from 0 to 9999, the
names that two calls of `Run` build are equal if and only if the backup names are
equal and the two readings fall in the same calendar second. -/
theorem Run_name_unique_per_second (d1 d2 : Deps) (o1 o2 : CreateOptions)
    (c1 c2 : Command) (f1 f2 : Factory) (cl1 cl2 : Clientset) (t1 t2 : Time)
    (hf1 : f1.Client = .ok cl1) (hf2 : f2.Client = .ok cl2)
    (h1 : 0 ≤ t1.year ∧ t1.year ≤ 9999) (h2 : 0 ≤ t2.year ∧ t2.year ≤ 9999) :
    ∃ n1 n2, builtName d1 o1 c1 f1 t1 = some n1 ∧ builtName d2 o2 c2 f2 t2 = some n2 ∧
      (n1 = n2 ↔ o1.BackupName = o2.BackupName ∧ t1.sameSecond t2) := by
  refine ⟨_, _, builtName_eq d1 o1 c1 f1 t1 cl1 hf1, builtName_eq d2 o2 c2 f2 t2 cl2 hf2, ?_⟩
  rw [Format_eq t1 h1.1 h1.2, Format_eq t2 h2.1 h2.2]
  constructor
  · intro h
    have hd := String.ext_iff.mp h
    simp only [String.data_append] at hd
    have hl : (yyyymmddhhmmss t1).data.length = (yyyymmddhhmmss t2).data.length := by
      have e1 := yyyymmddhhmmss_length t1
      have e2 := yyyymmddhhmmss_length t2
      simp only [String.length] at e1 e2
      rw [e1, e2]
    have hi := List.append_inj' hd hl
    have hb := List.append_inj' hi.1 rfl
    exact ⟨String.ext hb.1, (yyyymmddhhmmss_inj t1 t2 h1 h2).mp (String.ext hi.2)⟩
  · rintro ⟨hb, hs⟩
    rw [hb, (yyyymmddhhmmss_inj t1 t2 h1 h2).mpr hs]

theorem Run_name_unique_per_second_witness :
    ∃ n1 n2,
      builtName exampleDeps dailyOptions { OutputFormat := none } storingFactory august2017 =
        some n1 ∧
      builtName exampleDeps dailyOptions { OutputFormat := none } storingFactory
        august2017Later = some n2 ∧
      (n1 = n2 ↔ dailyOptions.BackupName = dailyOptions.BackupName ∧
        august2017.sameSecond august2017Later) :=
  Run_name_unique_per_second exampleDeps exampleDeps dailyOptions dailyOptions
    { OutputFormat := none } { OutputFormat := none } storingFactory storingFactory
    storingClient storingClient august2017 august2017Later rfl rfl (by decide) (by decide)

/-- C9: the timestamp suffix is lexically sortable.  For every backup name and every
two wall-clock date-times with years from 0 to 9999, the first is earlier than or
equal to the second, as (year, month, day, hour, minute, second), if and only if
its formatted timestamp is lexicographically less than or equal to the other, and
if and only if the request name that `Run` builds for it is lexicographically less
than or equal to the other name. -/
theorem Run_name_lexically_sortable (d : Deps) (o : CreateOptions) (c : Command)
    (f : Factory) (cl : Clientset) (t1 t2 : Time) (hf : f.Client = .ok cl)
    (h1 : 0 ≤ t1.year ∧ t1.year ≤ 9999) (h2 : 0 ≤ t2.year ∧ t2.year ≤ 9999) :
    (t1.notAfter t2 ↔
      t1.Format layout20060102150405 ≤ t2.Format layout20060102150405) ∧
    ∃ n1 n2, builtName d o c f t1 = some n1 ∧ builtName d o c f t2 = some n2 ∧
      (t1.notAfter t2 ↔ n1 ≤ n2) := by
  have hle : t1.notAfter t2 ↔
      t1.Format layout20060102150405 ≤ t2.Format layout20060102150405 := by
    rw [Format_eq t1 h1.1 h1.2, Format_eq t2 h2.1 h2.2]
    exact (yyyymmddhhmmss_le t1 t2 h1 h2).symm
  refine ⟨hle, _, _, builtName_eq d o c f t1 cl hf, builtName_eq d o c f t2 cl hf, ?_⟩
  rw [name_le_iff]
  exact hle

theorem Run_name_lexically_sortable_witness :
    august2017.notAfter december2017 ∧
    (august2017.notAfter december2017 ↔ august2017.Format layout20060102150405 ≤
      december2017.Format layout20060102150405) ∧
    ∃ n1 n2,
      builtName exampleDeps dailyOptions { OutputFormat := none } storingFactory august2017 =
        some n1 ∧
      builtName exampleDeps dailyOptions { OutputFormat := none } storingFactory
        december2017 = some n2 ∧
      (august2017.notAfter december2017 ↔ n1 ≤ n2) :=
  ⟨by decide,
    Run_name_lexically_sortable exampleDeps dailyOptions { OutputFormat := none }
      storingFactory storingClient august2017 december2017 rfl (by decide) (by decide)⟩

/-- C10: `Run` obtains the API client before it builds or renders anything.  For
every option set and every command, with or without an output-format flag, if the
client factory fails with an error then `Run` returns exactly that error and its
only interaction is the call of the factory: the clock is not read, no request is
built, nothing is written to standard output and no create call is made. -/
theorem Run_client_error_first (d : Deps) (o : CreateOptions) (c : Command) (f : Factory)
    (now : Time) (e : Error) (hf : f.Client = .error e) :
    (o.Run d c f now).err = some e ∧
      (o.Run d c f now).trace = [.client] ∧
      Event.now ∉ (o.Run d c f now).trace ∧
      requestsBuilt (o.Run d c f now).trace = [] ∧
      printedLines (o.Run d c f now).trace = [] ∧
      createCalls (o.Run d c f now).trace = [] := by
  rw [run_of_client_error d o c f now e hf]
  simp [requestsBuilt, printedLines, createCalls]

theorem Run_client_error_first_witness :
    (dailyOptions.Run exampleDeps { OutputFormat := some "yaml" } brokenFactory august2017).err =
        some { msg := "no kubeconfig found" } ∧
      (dailyOptions.Run exampleDeps { OutputFormat := some "yaml" } brokenFactory
        august2017).trace = [.client] ∧
      (dailyOptions.Run exampleDeps { OutputFormat := none } brokenFactory august2017).err =
        some { msg := "no kubeconfig found" } ∧
      (dailyOptions.Run exampleDeps { OutputFormat := none } brokenFactory
        august2017).trace = [.client] :=
  ⟨(Run_client_error_first exampleDeps dailyOptions { OutputFormat := some "yaml" }
      brokenFactory august2017 _ rfl).1,
    (Run_client_error_first exampleDeps dailyOptions { OutputFormat := some "yaml" }
      brokenFactory august2017 _ rfl).2.1,
    (Run_client_error_first exampleDeps dailyOptions { OutputFormat := none }
      brokenFactory august2017 _ rfl).1,
    (Run_client_error_first exampleDeps dailyOptions { OutputFormat := none }
      brokenFactory august2017 _ rfl).2.1⟩

end Ark
